import Mathlib

/-! Verification development for the dvb-go client: a shallow embedding of the
request/response pipeline (query-parameter encoding, request building, response
handling, error classification, and the four endpoint wrappers), together with
proofs about its behaviour.

Modelling conventions:

* Go strings are byte sequences.  At the query-string layer we therefore work
  with `List Nat` byte strings; `strBytes` maps an embedded string to its bytes
  (faithful for strings whose characters are all below 256, which is recorded
  as a hypothesis where it matters).
* `url.Values` is a map from keys to value lists; the client only ever calls
  `Set`, so it is embedded as an association list `Values` with `valuesSet`
  mirroring the replace-or-add map semantics.  Map iteration order is
  irrelevant to the embedded code because `Encode` sorts keys.
* External collaborators (net/url parsing, the JSON codec, the HTTP transport)
  are explicit function parameters, bundled in `Collab`; the repository code
  never inspects their internals.
* Go `error` results of the pipeline are embedded as the inductive `DvbError`,
  with one constructor per provenance: `errors.New` at a validation site,
  base-URL parse failure, `json.Marshal` failure, transport (`Do`) failure,
  body-read failure, a structured `*APIError`, and `json.Unmarshal` failure on
  a 2xx body.  In Go these are distinguished by dynamic type and message.
* `context.Context` (cancellation, deadlines) is not modelled; it is threaded
  through the code unchanged and only interpreted by the transport collaborator.
-/

/-- Go strconv.FormatBool: the literal true/false tokens. -/
def formatBool (b : Bool) : String := if b then "true" else "false"

/-- Byte sequence of an embedded Go string (Go strings are byte strings; this
is faithful whenever every character code is below 256). -/
def strBytes (s : String) : List Nat := s.data.map Char.toNat

/-- url.Values, restricted to the single-valued shape this client builds via
`Set`: an association list of key/value pairs. -/
abbrev Values := List (String × String)

/-- url.Values.Set: replace the value stored for a key, or add the key. -/
def valuesSet (q : Values) (k v : String) : Values :=
  match q with
  | [] => [(k, v)]
  | p :: rest => if p.1 = k then (k, v) :: rest else p :: valuesSet rest k v

/-- The keys of an embedded url.Values. -/
def keysOf (q : Values) : List String := q.map Prod.fst

/-- errors.go: the structured API error shape (JSON tags status_code, message,
code, details). -/
structure APIError where
  StatusCode : Int
  Message : String
  Code : String
  Details : String
  deriving DecidableEq, Inhabited

/-- errors.go: (*APIError).Error. -/
def APIError.Error (e : APIError) : String :=
  if e.Code ≠ "" then
    "API error " ++ toString e.StatusCode ++ " (" ++ e.Code ++ "): " ++ e.Message
  else
    "API error " ++ toString e.StatusCode ++ ": " ++ e.Message

/-- errors.go: IsNotFound reports a 404 error. -/
def APIError.IsNotFound (e : APIError) : Bool := e.StatusCode == 404

/-- errors.go: IsUnauthorized reports a 401 error. -/
def APIError.IsUnauthorized (e : APIError) : Bool := e.StatusCode == 401

/-- errors.go: IsForbidden reports a 403 error. -/
def APIError.IsForbidden (e : APIError) : Bool := e.StatusCode == 403

/-- errors.go: IsRateLimited reports a 429 error. -/
def APIError.IsRateLimited (e : APIError) : Bool := e.StatusCode == 429

/-- errors.go: IsServerError reports a 5xx error. -/
def APIError.IsServerError (e : APIError) : Bool :=
  decide (e.StatusCode ≥ 500) && decide (e.StatusCode < 600)

/-- errors.go: ValidationError (declared by the package; the endpoint wrappers
themselves raise their required-field failures via errors.New). -/
structure ValidationError where
  Field : String
  Message : String
  deriving DecidableEq, Inhabited

/-- errors.go: (*ValidationError).Error. -/
def ValidationError.Error (e : ValidationError) : String :=
  "validation error for field " ++ "\x27" ++ e.Field ++ "\x27" ++ ": " ++ e.Message

/-- Embedding of the Go `error` values the pipeline can return, tagged by the
site that creates them (in Go they are told apart by dynamic type and message). -/
inductive DvbError where
  /-- errors.New at a required-field validation site in an endpoint wrapper. -/
  | validation (msg : String)
  /-- doRequest: url.Parse of the configured base URL failed. -/
  | config (msg : String)
  /-- doRequest: json.Marshal of the request body failed. -/
  | marshal (msg : String)
  /-- doRequest: the transport (httpClient.Do) failed. -/
  | transport (msg : String)
  /-- handleResponse: io.ReadAll of a success body failed. -/
  | readFail (msg : String)
  /-- handleResponse on a non-2xx status: the classified *APIError. -/
  | api (e : APIError)
  /-- handleResponse: json.Unmarshal of a non-empty 2xx body failed. -/
  | decode (msg : String)
  deriving DecidableEq, Inhabited

/-- The modelled slice of net/http.Client: its configured timeout, in
nanoseconds (the only configuration the embedded code touches). -/
structure HTTPClient where
  timeout : Int
  deriving DecidableEq, Inhabited

/-- client.go: Config. -/
structure Config where
  BaseURL : String
  UserAgent : String
  Timeout : Int
  HTTPClient : Option HTTPClient
  deriving DecidableEq, Inhabited

/-- client.go: Client. -/
structure Client where
  baseURL : String
  httpClient : HTTPClient
  userAgent : String
  deriving DecidableEq, Inhabited

/-- client.go: NewClient.  30 * time.Second = 30000000000 nanoseconds. -/
def NewClient (config : Config) : Client :=
  let config := if config.BaseURL = "" then
      { config with BaseURL := "https://webapi.vvo-online.de" } else config
  let config := if config.UserAgent = "" then
      { config with UserAgent := "dvb-go-client/1.0.0" } else config
  let config := if config.Timeout = 0 then
      { config with Timeout := 30000000000 } else config
  let httpClient := match config.HTTPClient with
    | some h => h
    | none => { timeout := config.Timeout }
  { baseURL := config.BaseURL, httpClient := httpClient, userAgent := config.UserAgent }

/-- The modelled slice of net/url.URL: exactly the fields the embedded code
reads or writes.  rawQuery is a byte string. -/
structure URL where
  scheme : String
  host : String
  path : String
  rawQuery : List Nat
  deriving DecidableEq, Inhabited

/-- HTTPMethod from the request helper file. -/
abbrev HTTPMethod := String

/-- The GET method constant (http.MethodGet and the local GET constant both
denote the same string). -/
def GET : HTTPMethod := "GET"

/-- RequestOptions from the request helper file.  The body is an arbitrary
value handed to the JSON-marshal collaborator, hence the type parameter. -/
structure RequestOptions (β : Type) where
  method : HTTPMethod
  path : String
  query : Option Values
  body : Option β
  headers : List (String × String)
  deriving DecidableEq

/-- textproto: is a byte a valid header-token byte (digits, letters, and the
specials of the token table). -/
def isTokenByte (n : Nat) : Bool :=
  (48 ≤ n && n ≤ 57) || (65 ≤ n && n ≤ 90) || (97 ≤ n && n ≤ 122) ||
  n == 33 || n == 35 || n == 36 || n == 37 || n == 38 || n == 39 || n == 42 ||
  n == 43 || n == 45 || n == 46 || n == 94 || n == 95 || n == 96 || n == 124 || n == 126

/-- textproto canonicalization pass: upper-case a letter at the start or after
a hyphen (byte 45), lower-case every other letter. -/
def canonAux : Bool → List Char → List Char
  | _, [] => []
  | upper, c :: rest =>
    let c2 := if upper then
        (if 97 ≤ c.toNat ∧ c.toNat ≤ 122 then Char.ofNat (c.toNat - 32) else c)
      else
        (if 65 ≤ c.toNat ∧ c.toNat ≤ 90 then Char.ofNat (c.toNat + 32) else c)
    c2 :: canonAux (c2.toNat == 45) rest

/-- textproto.CanonicalMIMEHeaderKey: canonicalize when every byte is a valid
token byte, otherwise return the key unchanged. -/
def canonicalKey (s : String) : String :=
  if s.data.all (fun c => isTokenByte c.toNat) then String.mk (canonAux true s.data) else s

/-- First value stored for a key in an association list. -/
def lookupKey (q : List (String × String)) (k : String) : Option String :=
  match q with
  | [] => none
  | p :: rest => if p.1 = k then some p.2 else lookupKey rest k

/-- net/http Header.Set (textproto.MIMEHeader.Set): store the single value for
the canonicalized key. -/
def headerSet (h : List (String × String)) (k v : String) : List (String × String) :=
  valuesSet h (canonicalKey k) v

/-- net/http Header.Get: first value for the canonicalized key (none when the
header is absent). -/
def headerGet (h : List (String × String)) (k : String) : Option String :=
  lookupKey h (canonicalKey k)

/-- The modelled outbound http.Request produced by doRequest. -/
structure Request where
  method : String
  url : URL
  headers : List (String × String)
  body : Option (List Nat)
  deriving DecidableEq

/-- The modelled http.Response handed back by the transport: status code plus
body bytes; none models a body whose io.ReadAll would fail. -/
structure HTTPResponse where
  statusCode : Int
  body : Option (List Nat)
  deriving DecidableEq

/-- The external collaborators of the pipeline: net/url.Parse, json.Marshal
for the request-body type, and the HTTP transport (httpClient.Do). -/
structure Collab (β : Type) where
  parseURL : String → Except String URL
  marshal : β → Except String (List Nat)
  transport : Request → Except String HTTPResponse

/-- Upper-case hexadecimal digit of a value below 16 (url escaping uses the
upper-case hex alphabet). -/
def hexDigit (n : Nat) : Nat := if n < 10 then 48 + n else 55 + n

/-- Value of a hexadecimal digit byte (both cases accepted), as in net/url
unescaping. -/
def hexVal (n : Nat) : Option Nat :=
  if 48 ≤ n ∧ n ≤ 57 then some (n - 48)
  else if 65 ≤ n ∧ n ≤ 70 then some (n - 55)
  else if 97 ≤ n ∧ n ≤ 102 then some (n - 87)
  else none

/-- net/url shouldEscape for a query component: bytes kept verbatim are the
alphanumerics and 45 (-), 46 (.), 95 (_), 126 (~). -/
def isUnreservedByte (n : Nat) : Bool :=
  (48 ≤ n && n ≤ 57) || (65 ≤ n && n ≤ 90) || (97 ≤ n && n ≤ 122) ||
  n == 45 || n == 46 || n == 95 || n == 126

/-- url.QueryEscape on one byte: verbatim, 32 (space) to 43 (plus), otherwise
37 (percent) followed by two upper-case hex digits. -/
def escapeByte (n : Nat) : List Nat :=
  if isUnreservedByte n then [n]
  else if n = 32 then [43]
  else [37, hexDigit (n / 16), hexDigit (n % 16)]

/-- url.QueryEscape on a byte string. -/
def queryEscape (s : List Nat) : List Nat := (s.map escapeByte).flatten

/-- Byte order on byte strings, as used by the key sort in url.Values.Encode
(sort.Strings sorts by byte order). -/
def bytesLe : List Nat → List Nat → Bool
  | [], _ => true
  | _ :: _, [] => false
  | a :: as, b :: bs => if a < b then true else if b < a then false else bytesLe as bs

/-- Key order for the Encode sort. -/
def keyLe (a b : String × String) : Prop := bytesLe (strBytes a.1) (strBytes b.1) = true

instance : DecidableRel keyLe := fun a b => by unfold keyLe; infer_instance

/-- url.Values.Encode: keys sorted, each pair emitted as escaped key, 61 (=),
escaped value, pairs joined with 38 (&). -/
def encodeValues (q : Values) : List Nat :=
  List.intercalate [38] ((List.insertionSort keyLe q).map
    (fun p => queryEscape (strBytes p.1) ++ 61 :: queryEscape (strBytes p.2)))

/-- url.QueryUnescape: 37 (percent) plus two hex digits become one byte,
43 (plus) becomes 32 (space), anything else is verbatim; a malformed percent
escape is an error. -/
def unescapeQuery : List Nat → Option (List Nat)
  | [] => some []
  | c :: rest =>
    if c = 37 then
      match rest with
      | h :: l :: rest2 =>
        match hexVal h, hexVal l with
        | some a, some b => (unescapeQuery rest2).map (fun t => (16 * a + b) :: t)
        | _, _ => none
      | _ => none
    else if c = 43 then (unescapeQuery rest).map (fun t => 32 :: t)
    else (unescapeQuery rest).map (fun t => c :: t)

/-- strings.Cut at the first 61 (=): the part before it and the part after it
(the whole string and an empty remainder when absent). -/
def cutEq : List Nat → List Nat × List Nat
  | [] => ([], [])
  | c :: rest =>
    if c = 61 then ([], rest)
    else
      let p := cutEq rest
      (c :: p.1, p.2)

/-- The segment loop of url.ParseQuery: a segment containing 59 (;) is an
error that is skipped, an empty segment is skipped, otherwise the segment is
cut at the first 61 (=) and both sides are unescaped (a failed unescape skips
the pair and records the error).  Returns the parsed pairs and the error flag. -/
def parseQuerySegs : List (List Nat) → List (List Nat × List Nat) × Bool
  | [] => ([], false)
  | seg :: rest =>
    if 59 ∈ seg then
      let p := parseQuerySegs rest
      (p.1, true)
    else if seg = [] then parseQuerySegs rest
    else
      let kv := cutEq seg
      match unescapeQuery kv.1, unescapeQuery kv.2 with
      | some k, some v =>
        let p := parseQuerySegs rest
        ((k, v) :: p.1, p.2)
      | _, _ =>
        let p := parseQuerySegs rest
        (p.1, true)

/-- url.ParseQuery: split the raw query at 38 (&) and run the segment loop. -/
def parseQuery (s : List Nat) : List (List Nat × List Nat) × Bool :=
  parseQuerySegs (s.splitOn 38)

/-- doRequest up to handing the request to the transport: parse the base URL,
overwrite its path with the endpoint path, encode the query (when one is
present) into the raw query, marshal the body, and assemble the headers
(User-Agent first, then Content-Type when a body exists, then the
caller-supplied headers). -/
def buildRequest {β : Type} (env : Collab β) (c : Client) (opts : RequestOptions β) :
    Except DvbError Request :=
  match env.parseURL c.baseURL with
  | .error e => .error (.config ("invalid base URL: " ++ e))
  | .ok u =>
    let u := { u with path := opts.path }
    let u := match opts.query with
      | some q => { u with rawQuery := encodeValues q }
      | none => u
    match opts.body with
    | some b =>
      match env.marshal b with
      | .error e => .error (.marshal ("failed to marshal request body: " ++ e))
      | .ok bs =>
        let h := headerSet [] "User-Agent" c.userAgent
        let h := headerSet h "Content-Type" "application/json"
        let h := opts.headers.foldl (fun acc p => headerSet acc p.1 p.2) h
        .ok { method := opts.method, url := u, headers := h, body := some bs }
    | none =>
      let h := headerSet [] "User-Agent" c.userAgent
      let h := opts.headers.foldl (fun acc p => headerSet acc p.1 p.2) h
      .ok { method := opts.method, url := u, headers := h, body := none }

/-- doRequest: build the request and execute it against the transport. -/
def doRequest {β : Type} (env : Collab β) (c : Client) (opts : RequestOptions β) :
    Except DvbError HTTPResponse :=
  match buildRequest env c opts with
  | .error e => .error e
  | .ok req =>
    match env.transport req with
    | .error e => .error (.transport ("request failed: " ++ e))
    | .ok resp => .ok resp

/-- Bytes rendered back as an embedded Go string (inverse of strBytes on byte
values). -/
def bytesToString (l : List Nat) : String := String.mk (l.map Char.ofNat)

/-- handleErrorResponse: read the body (a failed read yields a bare status
error), try to decode it as the structured APIError shape via the collaborator
decA (a failed decode yields the generic status-plus-raw-body message), and in
the structured case overwrite the decoded status code with the response's. -/
def handleErrorResponse (decA : List Nat → Except String APIError)
    (resp : HTTPResponse) : APIError :=
  match resp.body with
  | none =>
    { StatusCode := resp.statusCode,
      Message := "HTTP " ++ toString resp.statusCode ++ ": failed to read error response",
      Code := "", Details := "" }
  | some body =>
    match decA body with
    | .error _ =>
      { StatusCode := resp.statusCode,
        Message := "HTTP " ++ toString resp.statusCode ++ ": " ++ bytesToString body,
        Code := "", Details := "" }
    | .ok apiErr => { apiErr with StatusCode := resp.statusCode }

/-- handleResponse: a status outside 200..299 is classified by
handleErrorResponse; with no decode target the call succeeds without reading
the body; an unreadable body is a read failure; an empty body succeeds without
decoding (the target keeps its zero value, modelled as none); otherwise the
body is decoded by the collaborator dec, a failure becoming a decode error
wrapping the cause. -/
def handleResponse {α : Type} (decA : List Nat → Except String APIError)
    (dec : List Nat → Except String α) (resp : HTTPResponse) (hasTarget : Bool) :
    Except DvbError (Option α) :=
  if resp.statusCode < 200 ∨ resp.statusCode ≥ 300 then
    .error (.api (handleErrorResponse decA resp))
  else if hasTarget = false then
    .ok none
  else
    match resp.body with
    | none => .error (.readFail "failed to read response body")
    | some body =>
      if body = [] then .ok none
      else
        match dec body with
        | .error cause => .error (.decode ("failed to unmarshal response: " ++ cause))
        | .ok v => .ok (some v)

/-- types.go: Status. -/
structure Status where
  Code : String
  Message : String
  deriving DecidableEq, Inhabited

/-- types.go: Diva. -/
structure Diva where
  Number : String
  Network : String
  deriving DecidableEq, Inhabited

/-- types.go: Platform. -/
structure Platform where
  Name : String
  Type' : String
  deriving DecidableEq, Inhabited

/-- api_monitor.go: MonitorStopParams (Go pointer fields are embedded as
Option). -/
structure MonitorStopParams where
  StopId : String
  Format : Option String
  Time : Option String
  IsArrival : Option Bool
  Limit : Option Int
  ShortTermChanges : Option Bool
  MentzOnly : Option Bool
  deriving DecidableEq, Inhabited

/-- api_monitor.go: Departure.  The Go field named Type does not exist here;
fields keep their source names (Type is spelled Type' where Lean reserves it). -/
structure Departure where
  Id : String
  DlId : String
  LineName : String
  Direction : String
  Platform : Platform
  Mot : String
  RealTime : String
  ScheduledTime : String
  State : String
  RouteChanges : List String
  Diva : Diva
  CancelReasons : List String
  Occupancy : String
  deriving DecidableEq, Inhabited

/-- api_monitor.go: MonitorStopResponse. -/
structure MonitorStopResponse where
  Name : String
  Status : Status
  Place : String
  ExpirationTime : String
  Departures : List Departure
  deriving DecidableEq, Inhabited

/-- api_route.go: GetRouteOptions. -/
structure GetRouteOptions where
  Origin : String
  Destination : String
  Format : Option String
  IsArrivalTime : Option Bool
  ShortTermChanges : Option Bool
  Time : Option String
  Via : Option String
  deriving DecidableEq, Inhabited

/-- api_route.go: MotChain (Go field Type is spelled Type'). -/
structure MotChain where
  DlId : String
  StatelessId : String
  Type' : String
  Name : String
  Direction : String
  Changes : List String
  Diva : Diva
  TransportationCompany : String
  OperatorCode : String
  ProductName : String
  TrainNumber : String
  deriving DecidableEq, Inhabited

/-- api_route.go: Mot (Go field Type is spelled Type'). -/
structure Mot where
  DlId : Option String
  StatelessId : Option String
  Type' : String
  Name : Option String
  Direction : Option String
  Changes : List String
  Diva : Option Diva
  TransportationCompany : Option String
  OperatorCode : Option String
  ProductName : Option String
  TrainNumber : Option String
  deriving DecidableEq, Inhabited

/-- api_route.go: RegularStop (Go field Type is spelled Type'). -/
structure RegularStop where
  ArrivalTime : String
  DepartureTime : String
  ArrivalRealTime : Option String
  DepartureRealTime : Option String
  Place : String
  Name : String
  Type' : String
  DataId : String
  DhId : String
  Platform : Platform
  Latitude : Int
  Longitude : Int
  DepartureState : Option String
  ArrivalState : Option String
  CancelReasons : List String
  ParkAndRail : List String
  Occupancy : String
  deriving DecidableEq, Inhabited

/-- api_route.go: PartialRoute. -/
structure PartialRoute where
  PartialRouteId : Option Int
  Duration : Int
  Mot : Mot
  MapDataIndex : Option Int
  Shift : String
  RegularStops : List RegularStop
  ChangeoverEndangered : Option Bool
  NextDepartureTimes : List String
  PreviousDepartureTimes : List String
  deriving DecidableEq, Inhabited

/-- api_route.go: Ticket. -/
structure Ticket where
  Name : String
  PriceLevel : Int
  Price : String
  NumberOfFareZones : String
  FareZoneNames : String
  deriving DecidableEq, Inhabited

/-- api_route.go: Route. -/
structure Route where
  PriceLevel : Int
  Price : String
  PriceDayTicket : String
  Net : String
  Duration : Int
  Interchanges : Int
  MotChain : List MotChain
  NumberOfFareZones : String
  NumberOfFareZonesDayTicket : String
  FareZoneNames : String
  FareZoneNamesDayTicket : String
  FareZoneOrigin : Int
  FareZoneDestination : Int
  RouteId : Int
  PartialRoutes : List PartialRoute
  MapData : List String
  Tickets : List Ticket
  deriving DecidableEq, Inhabited

/-- api_route.go: GetRouteResponse. -/
structure GetRouteResponse where
  SessionId : String
  Status : Status
  Routes : List Route
  deriving DecidableEq, Inhabited

/-- api_lines.go: GetLinesParams. -/
structure GetLinesParams where
  StopId : String
  Format : Option String
  deriving DecidableEq, Inhabited

/-- api_lines.go: TimeTable. -/
structure TimeTable where
  Id : String
  Name : String
  deriving DecidableEq, Inhabited

/-- api_lines.go: Direction. -/
structure Direction where
  Name : String
  TimeTables : List TimeTable
  deriving DecidableEq, Inhabited

/-- api_lines.go: Line. -/
structure Line where
  Name : String
  Mot : String
  Changes : List String
  Directions : List Direction
  Diva : Diva
  deriving DecidableEq, Inhabited

/-- api_lines.go: GetLinesResponse. -/
structure GetLinesResponse where
  Lines : List Line
  Status : Status
  ExpirationTime : String
  deriving DecidableEq, Inhabited

/-- point.go: GetPointOptions. -/
structure GetPointOptions where
  Query : String
  Format : Option String
  StopsOnly : Option Bool
  AssignedStops : Option Bool
  Limit : Option Int
  Dvb : Option Bool
  deriving DecidableEq, Inhabited

/-- point.go: GetPointResponse. -/
structure GetPointResponse where
  PointStatus : String
  Status : Status
  Points : List String
  ExpirationTime : String
  deriving DecidableEq, Inhabited

/-- The optional-string pattern of every endpoint wrapper: include the key only
when the pointer is non-nil and the string non-empty (the Go conditional
`x != nil && *x != ""` guarding query.Set). -/
def setOptStr (q : Values) (k : String) (x : Option String) : Values :=
  match x with
  | some s => if s = "" then q else valuesSet q k s
  | none => q

/-- The optional-boolean pattern: include the key with strconv.FormatBool of
the value whenever the pointer is non-nil (the Go conditional `x != nil`). -/
def setOptBool (q : Values) (k : String) (x : Option Bool) : Values :=
  match x with
  | some b => valuesSet q k (formatBool b)
  | none => q

/-- The optional-positive-integer pattern: include the key with strconv.Itoa of
the value only when the pointer is non-nil and the value strictly positive
(the Go conditional `x != nil && *x > 0`). -/
def setOptPos (q : Values) (k : String) (x : Option Int) : Values :=
  match x with
  | some n => if n > 0 then valuesSet q k (toString n) else q
  | none => q

/-- MonitorStop up to its doRequest call: required-field validation and query
building, producing the request options for path /dm. -/
def monitorStopPrepare (options : Option MonitorStopParams) :
    Except DvbError (RequestOptions Unit) :=
  match options with
  | none => .ok { method := GET, path := "/dm", query := some [], body := none, headers := [] }
  | some o =>
    if o.StopId = "" then .error (.validation "stopid can not be empty")
    else
      let q := valuesSet [] "stopid" o.StopId
      let q := setOptStr q "format" o.Format
      let q := setOptStr q "time" o.Time
      let q := setOptBool q "isarrival" o.IsArrival
      let q := setOptPos q "limit" o.Limit
      let q := setOptBool q "shorttermchanges" o.ShortTermChanges
      let q := setOptBool q "mentzonly" o.MentzOnly
      .ok { method := GET, path := "/dm", query := some q, body := none, headers := [] }

/-- GetRoute up to its doRequest call: origin and destination validation and
query building, producing the request options for path /tr/trips. -/
def getRoutePrepare (options : Option GetRouteOptions) :
    Except DvbError (RequestOptions Unit) :=
  match options with
  | none => .ok { method := GET, path := "/tr/trips", query := some [], body := none, headers := [] }
  | some o =>
    if o.Origin = "" then .error (.validation "origin can not be empty")
    else if o.Destination = "" then .error (.validation "destination can not be empty")
    else
      let q := valuesSet [] "origin" o.Origin
      let q := valuesSet q "destination" o.Destination
      let q := setOptStr q "format" o.Format
      let q := setOptBool q "isarrivaltime" o.IsArrivalTime
      let q := setOptBool q "shorttermchanges" o.ShortTermChanges
      let q := setOptStr q "time" o.Time
      let q := setOptStr q "via" o.Via
      .ok { method := GET, path := "/tr/trips", query := some q, body := none, headers := [] }

/-- GetLines up to its doRequest call: required-field validation and query
building, producing the request options for path /stt/lines. -/
def getLinesPrepare (options : Option GetLinesParams) :
    Except DvbError (RequestOptions Unit) :=
  match options with
  | none => .ok { method := GET, path := "/stt/lines", query := some [], body := none, headers := [] }
  | some o =>
    if o.StopId = "" then .error (.validation "stopid can not be empty")
    else
      let q := valuesSet [] "stopid" o.StopId
      let q := setOptStr q "format" o.Format
      .ok { method := GET, path := "/stt/lines", query := some q, body := none, headers := [] }

/-- GetPoint up to its doRequest call: required-field validation and query
building, producing the request options for path /tr/pointfinder. -/
def getPointPrepare (options : Option GetPointOptions) :
    Except DvbError (RequestOptions Unit) :=
  match options with
  | none => .ok { method := GET, path := "/tr/pointfinder", query := some [], body := none, headers := [] }
  | some o =>
    if o.Query = "" then .error (.validation "query can not be empty")
    else
      let q := valuesSet [] "query" o.Query
      let q := setOptStr q "format" o.Format
      let q := setOptPos q "limit" o.Limit
      let q := setOptBool q "stopsOnly" o.StopsOnly
      let q := setOptBool q "assignedStops" o.AssignedStops
      let q := setOptBool q "dvb" o.Dvb
      .ok { method := GET, path := "/tr/pointfinder", query := some q, body := none, headers := [] }

/-- The shared tail of every endpoint wrapper: dispatch the prepared request
and decode the response into the endpoint's resource (a zero-value resource,
modelled by default, when a success body was empty). -/
def runEndpoint {α : Type} [Inhabited α] (env : Collab Unit)
    (decA : List Nat → Except String APIError) (dec : List Nat → Except String α)
    (c : Client) (prep : Except DvbError (RequestOptions Unit)) : Except DvbError α :=
  match prep with
  | .error e => .error e
  | .ok opts =>
    match doRequest env c opts with
    | .error e => .error e
    | .ok resp =>
      match handleResponse decA dec resp true with
      | .error e => .error e
      | .ok none => .ok default
      | .ok (some r) => .ok r

/-- api_monitor.go: MonitorStop. -/
def MonitorStop (env : Collab Unit) (decA : List Nat → Except String APIError)
    (dec : List Nat → Except String MonitorStopResponse) (c : Client)
    (options : Option MonitorStopParams) : Except DvbError MonitorStopResponse :=
  runEndpoint env decA dec c (monitorStopPrepare options)

/-- api_route.go: GetRoute. -/
def GetRoute (env : Collab Unit) (decA : List Nat → Except String APIError)
    (dec : List Nat → Except String GetRouteResponse) (c : Client)
    (options : Option GetRouteOptions) : Except DvbError GetRouteResponse :=
  runEndpoint env decA dec c (getRoutePrepare options)

/-- api_lines.go: GetLines. -/
def GetLines (env : Collab Unit) (decA : List Nat → Except String APIError)
    (dec : List Nat → Except String GetLinesResponse) (c : Client)
    (options : Option GetLinesParams) : Except DvbError GetLinesResponse :=
  runEndpoint env decA dec c (getLinesPrepare options)

/-- point.go: GetPoint. -/
def GetPoint (env : Collab Unit) (decA : List Nat → Except String APIError)
    (dec : List Nat → Except String GetPointResponse) (c : Client)
    (options : Option GetPointOptions) : Except DvbError GetPointResponse :=
  runEndpoint env decA dec c (getPointPrepare options)

lemma mem_valuesSet_self (q : Values) (k v : String) : (k, v) ∈ valuesSet q k v := by
  induction q with
  | nil => simp [valuesSet]
  | cons p rest ih =>
    by_cases h : p.1 = k <;> simp [valuesSet, h, ih]

lemma mem_valuesSet_iff_of_ne {a k : String} (h : a ≠ k) (q : Values) (b v : String) :
    (a, b) ∈ valuesSet q k v ↔ (a, b) ∈ q := by
  induction q with
  | nil => simp [valuesSet, h]
  | cons p rest ih =>
    by_cases hp : p.1 = k
    · cases p with
      | mk pk pv =>
        simp only at hp
        subst hp
        simp [valuesSet, h]
    · simp [valuesSet, hp, ih]

lemma mem_keysOf_valuesSet_iff_of_ne {a k : String} (h : a ≠ k) (q : Values) (v : String) :
    a ∈ keysOf (valuesSet q k v) ↔ a ∈ keysOf q := by
  induction q with
  | nil => simp [valuesSet, keysOf, h]
  | cons p rest ih =>
    by_cases hp : p.1 = k
    · cases p with
      | mk pk pv =>
        simp only at hp
        subst hp
        simp [valuesSet, keysOf]
    · simp only [valuesSet, hp, if_false, ite_false, keysOf, List.map_cons, List.mem_cons]
      exact or_congr Iff.rfl (by simpa [keysOf] using ih)

lemma mem_setOptStr_iff_of_ne {a k : String} (h : a ≠ k) (q : Values) (b : String)
    (x : Option String) : (a, b) ∈ setOptStr q k x ↔ (a, b) ∈ q := by
  cases x with
  | none => simp [setOptStr]
  | some s =>
    by_cases hs : s = "" <;> simp [setOptStr, hs, mem_valuesSet_iff_of_ne h]

lemma mem_setOptBool_iff_of_ne {a k : String} (h : a ≠ k) (q : Values) (b : String)
    (x : Option Bool) : (a, b) ∈ setOptBool q k x ↔ (a, b) ∈ q := by
  cases x with
  | none => simp [setOptBool]
  | some v => simp [setOptBool, mem_valuesSet_iff_of_ne h]

lemma mem_setOptPos_iff_of_ne {a k : String} (h : a ≠ k) (q : Values) (b : String)
    (x : Option Int) : (a, b) ∈ setOptPos q k x ↔ (a, b) ∈ q := by
  cases x with
  | none => simp [setOptPos]
  | some n =>
    by_cases hn : n > 0 <;> simp [setOptPos, hn, mem_valuesSet_iff_of_ne h]

lemma mem_keysOf_setOptStr_iff_of_ne {a k : String} (h : a ≠ k) (q : Values)
    (x : Option String) : a ∈ keysOf (setOptStr q k x) ↔ a ∈ keysOf q := by
  cases x with
  | none => simp [setOptStr]
  | some s =>
    by_cases hs : s = "" <;> simp [setOptStr, hs, mem_keysOf_valuesSet_iff_of_ne h]

lemma mem_keysOf_setOptBool_iff_of_ne {a k : String} (h : a ≠ k) (q : Values)
    (x : Option Bool) : a ∈ keysOf (setOptBool q k x) ↔ a ∈ keysOf q := by
  cases x with
  | none => simp [setOptBool]
  | some v => simp [setOptBool, mem_keysOf_valuesSet_iff_of_ne h]

lemma mem_keysOf_setOptPos_iff_of_ne {a k : String} (h : a ≠ k) (q : Values)
    (x : Option Int) : a ∈ keysOf (setOptPos q k x) ↔ a ∈ keysOf q := by
  cases x with
  | none => simp [setOptPos]
  | some n =>
    by_cases hn : n > 0 <;> simp [setOptPos, hn, mem_keysOf_valuesSet_iff_of_ne h]

lemma mem_setOptStr_some {s : String} (hs : s ≠ "") (q : Values) (k : String) :
    (k, s) ∈ setOptStr q k (some s) := by
  simp [setOptStr, hs, mem_valuesSet_self]

lemma mem_setOptBool_some (q : Values) (k : String) (b : Bool) :
    (k, formatBool b) ∈ setOptBool q k (some b) := by
  simp [setOptBool, mem_valuesSet_self]

lemma mem_setOptPos_some {n : Int} (hn : n > 0) (q : Values) (k : String) :
    (k, toString n) ∈ setOptPos q k (some n) := by
  simp [setOptPos, hn, mem_valuesSet_self]

/-- C1: for every endpoint operation called with a non-nil params value whose
required string field is empty, the call returns the validation error naming
that field, and the result is the same for every transport collaborator, so no
network dispatch (doRequest / transport invocation) takes place.  For GetRoute
the origin check runs first and the destination check only after a non-empty
origin, matching the source order. -/
theorem C1_empty_required_field_validates :
    (∀ env decA dec c (o : MonitorStopParams), o.StopId = "" →
      MonitorStop env decA dec c (some o) = .error (.validation "stopid can not be empty")) ∧
    (∀ env decA dec c (o : GetRouteOptions), o.Origin = "" →
      GetRoute env decA dec c (some o) = .error (.validation "origin can not be empty")) ∧
    (∀ env decA dec c (o : GetRouteOptions), o.Origin ≠ "" → o.Destination = "" →
      GetRoute env decA dec c (some o) = .error (.validation "destination can not be empty")) ∧
    (∀ env decA dec c (o : GetLinesParams), o.StopId = "" →
      GetLines env decA dec c (some o) = .error (.validation "stopid can not be empty")) ∧
    (∀ env decA dec c (o : GetPointOptions), o.Query = "" →
      GetPoint env decA dec c (some o) = .error (.validation "query can not be empty")) := by
  refine ⟨?_, ?_, ?_, ?_, ?_⟩
  · intro env decA dec c o h
    simp [MonitorStop, runEndpoint, monitorStopPrepare, h]
  · intro env decA dec c o h
    simp [GetRoute, runEndpoint, getRoutePrepare, h]
  · intro env decA dec c o h1 h2
    simp [GetRoute, runEndpoint, getRoutePrepare, h1, h2]
  · intro env decA dec c o h
    simp [GetLines, runEndpoint, getLinesPrepare, h]
  · intro env decA dec c o h
    simp [GetPoint, runEndpoint, getPointPrepare, h]

/-- C1 witness: the validation short-circuit evaluated at concrete inputs (a
transport stub that would fail every call, showing its answer is never used). -/
theorem C1_empty_required_field_validates_witness :
    MonitorStop ⟨fun _ => .error "", fun _ => .ok [], fun _ => .error "down"⟩
        (fun _ => .error "") (fun _ => .error "") ⟨"", ⟨0⟩, ""⟩ (some default)
      = .error (.validation "stopid can not be empty") ∧
    GetRoute ⟨fun _ => .error "", fun _ => .ok [], fun _ => .error "down"⟩
        (fun _ => .error "") (fun _ => .error "") ⟨"", ⟨0⟩, ""⟩ (some default)
      = .error (.validation "origin can not be empty") ∧
    GetRoute ⟨fun _ => .error "", fun _ => .ok [], fun _ => .error "down"⟩
        (fun _ => .error "") (fun _ => .error "") ⟨"", ⟨0⟩, ""⟩
        (some { (default : GetRouteOptions) with Origin := "a" })
      = .error (.validation "destination can not be empty") ∧
    GetLines ⟨fun _ => .error "", fun _ => .ok [], fun _ => .error "down"⟩
        (fun _ => .error "") (fun _ => .error "") ⟨"", ⟨0⟩, ""⟩ (some default)
      = .error (.validation "stopid can not be empty") ∧
    GetPoint ⟨fun _ => .error "", fun _ => .ok [], fun _ => .error "down"⟩
        (fun _ => .error "") (fun _ => .error "") ⟨"", ⟨0⟩, ""⟩ (some default)
      = .error (.validation "query can not be empty") :=
  ⟨C1_empty_required_field_validates.1 _ _ _ _ _ rfl,
   C1_empty_required_field_validates.2.1 _ _ _ _ _ rfl,
   C1_empty_required_field_validates.2.2.1 _ _ _ _ _ (by decide) rfl,
   C1_empty_required_field_validates.2.2.2.1 _ _ _ _ _ rfl,
   C1_empty_required_field_validates.2.2.2.2 _ _ _ _ _ rfl⟩

/-- The tri-state rule of the specification for an optional string field, as a
predicate on the produced query: an absent (nil) or empty value contributes no
key, a non-empty value contributes exactly its key/value pair. -/
def strFieldOk (q : Values) (k : String) (x : Option String) : Prop :=
  match x with
  | none => k ∉ keysOf q
  | some s => if s = "" then k ∉ keysOf q else (k, s) ∈ q

/-- The tri-state rule of the specification for an optional boolean field: an
absent value contributes no key, a present value (true or false) contributes
the key with the literal true/false token. -/
def boolFieldOk (q : Values) (k : String) (x : Option Bool) : Prop :=
  match x with
  | none => k ∉ keysOf q
  | some b => (k, formatBool b) ∈ q

/-- The tri-state rule of the specification for the optional integer field: an
absent or non-positive value contributes no key, a strictly positive value
contributes the key with its decimal encoding. -/
def intFieldOk (q : Values) (k : String) (x : Option Int) : Prop :=
  match x with
  | none => k ∉ keysOf q
  | some n => if n > 0 then (k, toString n) ∈ q else k ∉ keysOf q

lemma setOptStr_none (q : Values) (k : String) : setOptStr q k none = q := rfl

lemma setOptBool_none (q : Values) (k : String) : setOptBool q k none = q := rfl

lemma setOptPos_none (q : Values) (k : String) : setOptPos q k none = q := rfl

lemma setOptStr_some_empty (q : Values) (k : String) : setOptStr q k (some "") = q := by
  simp [setOptStr]

lemma setOptPos_nonpos {n : Int} (hn : ¬ n > 0) (q : Values) (k : String) :
    setOptPos q k (some n) = q := by
  simp [setOptPos, hn]

lemma keysOf_nil : keysOf ([] : Values) = [] := rfl

lemma mem_keysOf_cons (a : String) (p : String × String) (q : Values) :
    a ∈ keysOf (p :: q) ↔ a = p.1 ∨ a ∈ keysOf q := by
  simp [keysOf]

/-- C2: every query produced by an endpoint wrapper from a non-nil params value
obeys the tri-state rule for each of its optional fields: nil contributes no
key; an optional string contributes its key only when non-nil and non-empty;
the optional integer Limit contributes its decimal encoding only when non-nil
and strictly positive; a non-nil optional boolean always contributes the
literal true/false token, also for false. -/
theorem C2_tri_state_query_encoding :
    (∀ (o : MonitorStopParams) r q, monitorStopPrepare (some o) = .ok r → r.query = some q →
      strFieldOk q "format" o.Format ∧ strFieldOk q "time" o.Time ∧
      boolFieldOk q "isarrival" o.IsArrival ∧ intFieldOk q "limit" o.Limit ∧
      boolFieldOk q "shorttermchanges" o.ShortTermChanges ∧
      boolFieldOk q "mentzonly" o.MentzOnly) ∧
    (∀ (o : GetRouteOptions) r q, getRoutePrepare (some o) = .ok r → r.query = some q →
      strFieldOk q "format" o.Format ∧ boolFieldOk q "isarrivaltime" o.IsArrivalTime ∧
      boolFieldOk q "shorttermchanges" o.ShortTermChanges ∧ strFieldOk q "time" o.Time ∧
      strFieldOk q "via" o.Via) ∧
    (∀ (o : GetLinesParams) r q, getLinesPrepare (some o) = .ok r → r.query = some q →
      strFieldOk q "format" o.Format) ∧
    (∀ (o : GetPointOptions) r q, getPointPrepare (some o) = .ok r → r.query = some q →
      strFieldOk q "format" o.Format ∧ intFieldOk q "limit" o.Limit ∧
      boolFieldOk q "stopsOnly" o.StopsOnly ∧ boolFieldOk q "assignedStops" o.AssignedStops ∧
      boolFieldOk q "dvb" o.Dvb) := by
  refine ⟨?_, ?_, ?_, ?_⟩
  · intro o r q hpre hq
    by_cases h : o.StopId = ""
    · simp [monitorStopPrepare, h] at hpre
    · simp [monitorStopPrepare, h] at hpre
      subst hpre
      simp only at hq
      rw [Option.some.injEq] at hq
      subst hq
      refine ⟨?_, ?_, ?_, ?_, ?_, ?_⟩
      · rcases hx : o.Format with - | s
        · simp [strFieldOk, setOptStr_none, setOptBool_none, setOptPos_none,
              setOptStr_some_empty, mem_keysOf_setOptStr_iff_of_ne,
              mem_keysOf_setOptBool_iff_of_ne, mem_keysOf_setOptPos_iff_of_ne, valuesSet,
              mem_keysOf_cons, keysOf_nil]
        · by_cases hs : s = ""
          · simp [strFieldOk, hs, setOptStr_none, setOptBool_none, setOptPos_none,
                setOptStr_some_empty, mem_keysOf_setOptStr_iff_of_ne,
                mem_keysOf_setOptBool_iff_of_ne, mem_keysOf_setOptPos_iff_of_ne, valuesSet,
                mem_keysOf_cons, keysOf_nil]
          · simp only [strFieldOk, if_neg hs]
            simp [mem_setOptStr_iff_of_ne, mem_setOptBool_iff_of_ne, mem_setOptPos_iff_of_ne,
                mem_setOptStr_some hs]
      · rcases hx : o.Time with - | s
        · simp [strFieldOk, setOptStr_none, setOptBool_none, setOptPos_none,
              setOptStr_some_empty, mem_keysOf_setOptStr_iff_of_ne,
              mem_keysOf_setOptBool_iff_of_ne, mem_keysOf_setOptPos_iff_of_ne, valuesSet,
              mem_keysOf_cons, keysOf_nil]
        · by_cases hs : s = ""
          · simp [strFieldOk, hs, setOptStr_none, setOptBool_none, setOptPos_none,
                setOptStr_some_empty, mem_keysOf_setOptStr_iff_of_ne,
                mem_keysOf_setOptBool_iff_of_ne, mem_keysOf_setOptPos_iff_of_ne, valuesSet,
                mem_keysOf_cons, keysOf_nil]
          · simp only [strFieldOk, if_neg hs]
            simp [mem_setOptStr_iff_of_ne, mem_setOptBool_iff_of_ne, mem_setOptPos_iff_of_ne,
                mem_setOptStr_some hs]
      · rcases hx : o.IsArrival with - | b
        · simp [boolFieldOk, setOptStr_none, setOptBool_none, setOptPos_none,
              setOptStr_some_empty, mem_keysOf_setOptStr_iff_of_ne,
              mem_keysOf_setOptBool_iff_of_ne, mem_keysOf_setOptPos_iff_of_ne, valuesSet,
              mem_keysOf_cons, keysOf_nil]
        · simp [boolFieldOk, mem_setOptStr_iff_of_ne, mem_setOptBool_iff_of_ne, mem_setOptPos_iff_of_ne,
              mem_setOptBool_some]
      · rcases hx : o.Limit with - | n
        · simp [intFieldOk, setOptStr_none, setOptBool_none, setOptPos_none,
              setOptStr_some_empty, mem_keysOf_setOptStr_iff_of_ne,
              mem_keysOf_setOptBool_iff_of_ne, mem_keysOf_setOptPos_iff_of_ne, valuesSet,
              mem_keysOf_cons, keysOf_nil]
        · by_cases hp : n > 0
          · simp only [intFieldOk, if_pos hp]
            simp [mem_setOptStr_iff_of_ne, mem_setOptBool_iff_of_ne, mem_setOptPos_iff_of_ne,
                mem_setOptPos_some hp]
          · simp only [intFieldOk, if_neg hp]
            simp [intFieldOk, setOptPos_nonpos hp, setOptStr_none, setOptBool_none,
                setOptPos_none, setOptStr_some_empty, mem_keysOf_setOptStr_iff_of_ne,
                mem_keysOf_setOptBool_iff_of_ne, mem_keysOf_setOptPos_iff_of_ne, valuesSet,
                mem_keysOf_cons, keysOf_nil]
      · rcases hx : o.ShortTermChanges with - | b
        · simp [boolFieldOk, setOptStr_none, setOptBool_none, setOptPos_none,
              setOptStr_some_empty, mem_keysOf_setOptStr_iff_of_ne,
              mem_keysOf_setOptBool_iff_of_ne, mem_keysOf_setOptPos_iff_of_ne, valuesSet,
              mem_keysOf_cons, keysOf_nil]
        · simp [boolFieldOk, mem_setOptStr_iff_of_ne, mem_setOptBool_iff_of_ne, mem_setOptPos_iff_of_ne,
              mem_setOptBool_some]
      · rcases hx : o.MentzOnly with - | b
        · simp [boolFieldOk, setOptStr_none, setOptBool_none, setOptPos_none,
              setOptStr_some_empty, mem_keysOf_setOptStr_iff_of_ne,
              mem_keysOf_setOptBool_iff_of_ne, mem_keysOf_setOptPos_iff_of_ne, valuesSet,
              mem_keysOf_cons, keysOf_nil]
        · simp [boolFieldOk, mem_setOptStr_iff_of_ne, mem_setOptBool_iff_of_ne, mem_setOptPos_iff_of_ne,
              mem_setOptBool_some]
  · intro o r q hpre hq
    by_cases h1 : o.Origin = ""
    · simp [getRoutePrepare, h1] at hpre
    · by_cases h2 : o.Destination = ""
      · simp [getRoutePrepare, h1, h2] at hpre
      · simp [getRoutePrepare, h1, h2] at hpre
        subst hpre
        simp only at hq
        rw [Option.some.injEq] at hq
        subst hq
        refine ⟨?_, ?_, ?_, ?_, ?_⟩
        · rcases hx : o.Format with - | s
          · simp [strFieldOk, setOptStr_none, setOptBool_none, setOptPos_none,
                setOptStr_some_empty, mem_keysOf_setOptStr_iff_of_ne,
                mem_keysOf_setOptBool_iff_of_ne, mem_keysOf_setOptPos_iff_of_ne, valuesSet,
                mem_keysOf_cons, keysOf_nil]
          · by_cases hs : s = ""
            · simp [strFieldOk, hs, setOptStr_none, setOptBool_none, setOptPos_none,
                  setOptStr_some_empty, mem_keysOf_setOptStr_iff_of_ne,
                  mem_keysOf_setOptBool_iff_of_ne, mem_keysOf_setOptPos_iff_of_ne, valuesSet,
                  mem_keysOf_cons, keysOf_nil]
            · simp only [strFieldOk, if_neg hs]
              simp [mem_setOptStr_iff_of_ne, mem_setOptBool_iff_of_ne, mem_setOptPos_iff_of_ne,
                  mem_setOptStr_some hs]
        · rcases hx : o.IsArrivalTime with - | b
          · simp [boolFieldOk, setOptStr_none, setOptBool_none, setOptPos_none,
                setOptStr_some_empty, mem_keysOf_setOptStr_iff_of_ne,
                mem_keysOf_setOptBool_iff_of_ne, mem_keysOf_setOptPos_iff_of_ne, valuesSet,
                mem_keysOf_cons, keysOf_nil]
          · simp [boolFieldOk, mem_setOptStr_iff_of_ne, mem_setOptBool_iff_of_ne, mem_setOptPos_iff_of_ne,
                mem_setOptBool_some]
        · rcases hx : o.ShortTermChanges with - | b
          · simp [boolFieldOk, setOptStr_none, setOptBool_none, setOptPos_none,
                setOptStr_some_empty, mem_keysOf_setOptStr_iff_of_ne,
                mem_keysOf_setOptBool_iff_of_ne, mem_keysOf_setOptPos_iff_of_ne, valuesSet,
                mem_keysOf_cons, keysOf_nil]
          · simp [boolFieldOk, mem_setOptStr_iff_of_ne, mem_setOptBool_iff_of_ne, mem_setOptPos_iff_of_ne,
                mem_setOptBool_some]
        · rcases hx : o.Time with - | s
          · simp [strFieldOk, setOptStr_none, setOptBool_none, setOptPos_none,
                setOptStr_some_empty, mem_keysOf_setOptStr_iff_of_ne,
                mem_keysOf_setOptBool_iff_of_ne, mem_keysOf_setOptPos_iff_of_ne, valuesSet,
                mem_keysOf_cons, keysOf_nil]
          · by_cases hs : s = ""
            · simp [strFieldOk, hs, setOptStr_none, setOptBool_none, setOptPos_none,
                  setOptStr_some_empty, mem_keysOf_setOptStr_iff_of_ne,
                  mem_keysOf_setOptBool_iff_of_ne, mem_keysOf_setOptPos_iff_of_ne, valuesSet,
                  mem_keysOf_cons, keysOf_nil]
            · simp only [strFieldOk, if_neg hs]
              simp [mem_setOptStr_iff_of_ne, mem_setOptBool_iff_of_ne, mem_setOptPos_iff_of_ne,
                  mem_setOptStr_some hs]
        · rcases hx : o.Via with - | s
          · simp [strFieldOk, setOptStr_none, setOptBool_none, setOptPos_none,
                setOptStr_some_empty, mem_keysOf_setOptStr_iff_of_ne,
                mem_keysOf_setOptBool_iff_of_ne, mem_keysOf_setOptPos_iff_of_ne, valuesSet,
                mem_keysOf_cons, keysOf_nil]
          · by_cases hs : s = ""
            · simp [strFieldOk, hs, setOptStr_none, setOptBool_none, setOptPos_none,
                  setOptStr_some_empty, mem_keysOf_setOptStr_iff_of_ne,
                  mem_keysOf_setOptBool_iff_of_ne, mem_keysOf_setOptPos_iff_of_ne, valuesSet,
                  mem_keysOf_cons, keysOf_nil]
            · simp only [strFieldOk, if_neg hs]
              simp [mem_setOptStr_iff_of_ne, mem_setOptBool_iff_of_ne, mem_setOptPos_iff_of_ne,
                  mem_setOptStr_some hs]
  · intro o r q hpre hq
    by_cases h : o.StopId = ""
    · simp [getLinesPrepare, h] at hpre
    · simp [getLinesPrepare, h] at hpre
      subst hpre
      simp only at hq
      rw [Option.some.injEq] at hq
      subst hq
      rcases hx : o.Format with - | s
      · simp [strFieldOk, setOptStr_none, setOptBool_none, setOptPos_none,
            setOptStr_some_empty, mem_keysOf_setOptStr_iff_of_ne,
            mem_keysOf_setOptBool_iff_of_ne, mem_keysOf_setOptPos_iff_of_ne, valuesSet,
            mem_keysOf_cons, keysOf_nil]
      · by_cases hs : s = ""
        · simp [strFieldOk, hs, setOptStr_none, setOptBool_none, setOptPos_none,
              setOptStr_some_empty, mem_keysOf_setOptStr_iff_of_ne,
              mem_keysOf_setOptBool_iff_of_ne, mem_keysOf_setOptPos_iff_of_ne, valuesSet,
              mem_keysOf_cons, keysOf_nil]
        · simp only [strFieldOk, if_neg hs]
          simp [mem_setOptStr_iff_of_ne, mem_setOptBool_iff_of_ne, mem_setOptPos_iff_of_ne,
              mem_setOptStr_some hs]
  · intro o r q hpre hq
    by_cases h : o.Query = ""
    · simp [getPointPrepare, h] at hpre
    · simp [getPointPrepare, h] at hpre
      subst hpre
      simp only at hq
      rw [Option.some.injEq] at hq
      subst hq
      refine ⟨?_, ?_, ?_, ?_, ?_⟩
      · rcases hx : o.Format with - | s
        · simp [strFieldOk, setOptStr_none, setOptBool_none, setOptPos_none,
              setOptStr_some_empty, mem_keysOf_setOptStr_iff_of_ne,
              mem_keysOf_setOptBool_iff_of_ne, mem_keysOf_setOptPos_iff_of_ne, valuesSet,
              mem_keysOf_cons, keysOf_nil]
        · by_cases hs : s = ""
          · simp [strFieldOk, hs, setOptStr_none, setOptBool_none, setOptPos_none,
                setOptStr_some_empty, mem_keysOf_setOptStr_iff_of_ne,
                mem_keysOf_setOptBool_iff_of_ne, mem_keysOf_setOptPos_iff_of_ne, valuesSet,
                mem_keysOf_cons, keysOf_nil]
          · simp only [strFieldOk, if_neg hs]
            simp [mem_setOptStr_iff_of_ne, mem_setOptBool_iff_of_ne, mem_setOptPos_iff_of_ne,
                mem_setOptStr_some hs]
      · rcases hx : o.Limit with - | n
        · simp [intFieldOk, setOptStr_none, setOptBool_none, setOptPos_none,
              setOptStr_some_empty, mem_keysOf_setOptStr_iff_of_ne,
              mem_keysOf_setOptBool_iff_of_ne, mem_keysOf_setOptPos_iff_of_ne, valuesSet,
              mem_keysOf_cons, keysOf_nil]
        · by_cases hp : n > 0
          · simp only [intFieldOk, if_pos hp]
            simp [mem_setOptStr_iff_of_ne, mem_setOptBool_iff_of_ne, mem_setOptPos_iff_of_ne,
                mem_setOptPos_some hp]
          · simp only [intFieldOk, if_neg hp]
            simp [intFieldOk, setOptPos_nonpos hp, setOptStr_none, setOptBool_none,
                setOptPos_none, setOptStr_some_empty, mem_keysOf_setOptStr_iff_of_ne,
                mem_keysOf_setOptBool_iff_of_ne, mem_keysOf_setOptPos_iff_of_ne, valuesSet,
                mem_keysOf_cons, keysOf_nil]
      · rcases hx : o.StopsOnly with - | b
        · simp [boolFieldOk, setOptStr_none, setOptBool_none, setOptPos_none,
              setOptStr_some_empty, mem_keysOf_setOptStr_iff_of_ne,
              mem_keysOf_setOptBool_iff_of_ne, mem_keysOf_setOptPos_iff_of_ne, valuesSet,
              mem_keysOf_cons, keysOf_nil]
        · simp [boolFieldOk, mem_setOptStr_iff_of_ne, mem_setOptBool_iff_of_ne, mem_setOptPos_iff_of_ne,
              mem_setOptBool_some]
      · rcases hx : o.AssignedStops with - | b
        · simp [boolFieldOk, setOptStr_none, setOptBool_none, setOptPos_none,
              setOptStr_some_empty, mem_keysOf_setOptStr_iff_of_ne,
              mem_keysOf_setOptBool_iff_of_ne, mem_keysOf_setOptPos_iff_of_ne, valuesSet,
              mem_keysOf_cons, keysOf_nil]
        · simp [boolFieldOk, mem_setOptStr_iff_of_ne, mem_setOptBool_iff_of_ne, mem_setOptPos_iff_of_ne,
              mem_setOptBool_some]
      · rcases hx : o.Dvb with - | b
        · simp [boolFieldOk, setOptStr_none, setOptBool_none, setOptPos_none,
              setOptStr_some_empty, mem_keysOf_setOptStr_iff_of_ne,
              mem_keysOf_setOptBool_iff_of_ne, mem_keysOf_setOptPos_iff_of_ne, valuesSet,
              mem_keysOf_cons, keysOf_nil]
        · simp [boolFieldOk, mem_setOptStr_iff_of_ne, mem_setOptBool_iff_of_ne, mem_setOptPos_iff_of_ne,
              mem_setOptBool_some]

/-- C2 witness: the tri-state conclusions evaluated for a concrete params value
exercising all three states (absent, present-empty, present false/positive). -/
theorem C2_tri_state_query_encoding_witness :
    strFieldOk [("stopid", "33000028"), ("isarrival", "false"), ("limit", "10"),
        ("shorttermchanges", "true")] "format" none ∧
    strFieldOk [("stopid", "33000028"), ("isarrival", "false"), ("limit", "10"),
        ("shorttermchanges", "true")] "time" (some "") ∧
    boolFieldOk [("stopid", "33000028"), ("isarrival", "false"), ("limit", "10"),
        ("shorttermchanges", "true")] "isarrival" (some false) ∧
    intFieldOk [("stopid", "33000028"), ("isarrival", "false"), ("limit", "10"),
        ("shorttermchanges", "true")] "limit" (some 10) ∧
    boolFieldOk [("stopid", "33000028"), ("isarrival", "false"), ("limit", "10"),
        ("shorttermchanges", "true")] "shorttermchanges" (some true) ∧
    boolFieldOk [("stopid", "33000028"), ("isarrival", "false"), ("limit", "10"),
        ("shorttermchanges", "true")] "mentzonly" none :=
  C2_tri_state_query_encoding.1
    ⟨"33000028", none, some "", some false, some 10, some true, none⟩ _ _ rfl rfl

/-- C5: each classification predicate of APIError is a pure function of the
stored status code (404, 401, 403, 429, and the 500..599 band), and a 404
error satisfies IsNotFound and none of the other four predicates. -/
theorem C5_predicates_pure_in_status (e : APIError) :
    (e.IsNotFound = true ↔ e.StatusCode = 404) ∧
    (e.IsUnauthorized = true ↔ e.StatusCode = 401) ∧
    (e.IsForbidden = true ↔ e.StatusCode = 403) ∧
    (e.IsRateLimited = true ↔ e.StatusCode = 429) ∧
    (e.IsServerError = true ↔ (500 ≤ e.StatusCode ∧ e.StatusCode ≤ 599)) ∧
    (e.StatusCode = 404 → e.IsNotFound = true ∧ e.IsUnauthorized = false ∧
      e.IsForbidden = false ∧ e.IsRateLimited = false ∧ e.IsServerError = false) := by
  refine ⟨?_, ?_, ?_, ?_, ?_, ?_⟩
  · simp [APIError.IsNotFound]
  · simp [APIError.IsUnauthorized]
  · simp [APIError.IsForbidden]
  · simp [APIError.IsRateLimited]
  · simp only [APIError.IsServerError, Bool.and_eq_true, decide_eq_true_eq]
    constructor
    · rintro ⟨h1, h2⟩
      exact ⟨h1, by omega⟩
    · rintro ⟨h1, h2⟩
      exact ⟨h1, by omega⟩
  · intro h
    simp [APIError.IsNotFound, APIError.IsUnauthorized, APIError.IsForbidden,
      APIError.IsRateLimited, APIError.IsServerError, h]

/-- C5 witness: a 404 error with the message of the specification example
satisfies IsNotFound and fails the four other predicates. -/
theorem C5_predicates_pure_in_status_witness :
    (⟨404, "stop not found", "", ""⟩ : APIError).IsNotFound = true ∧
    (⟨404, "stop not found", "", ""⟩ : APIError).IsUnauthorized = false ∧
    (⟨404, "stop not found", "", ""⟩ : APIError).IsForbidden = false ∧
    (⟨404, "stop not found", "", ""⟩ : APIError).IsRateLimited = false ∧
    (⟨404, "stop not found", "", ""⟩ : APIError).IsServerError = false :=
  (C5_predicates_pure_in_status ⟨404, "stop not found", "", ""⟩).2.2.2.2.2 rfl

/-- C7: NewClient is total (there is no error path) and applies each fallback
independently: empty base URL becomes the production endpoint, empty user
agent becomes the fixed identifier, zero timeout becomes 30 seconds
(30000000000 nanoseconds), a supplied HTTP client is used as-is, and no
well-formedness validation of the base URL happens at construction. -/
theorem C7_new_client_defaults (cfg : Config) :
    (cfg.BaseURL = "" → (NewClient cfg).baseURL = "https://webapi.vvo-online.de") ∧
    (cfg.BaseURL ≠ "" → (NewClient cfg).baseURL = cfg.BaseURL) ∧
    (cfg.UserAgent = "" → (NewClient cfg).userAgent = "dvb-go-client/1.0.0") ∧
    (cfg.UserAgent ≠ "" → (NewClient cfg).userAgent = cfg.UserAgent) ∧
    (∀ h, cfg.HTTPClient = some h → (NewClient cfg).httpClient = h) ∧
    (cfg.HTTPClient = none → cfg.Timeout = 0 →
      (NewClient cfg).httpClient = ⟨30000000000⟩) ∧
    (cfg.HTTPClient = none → cfg.Timeout ≠ 0 →
      (NewClient cfg).httpClient = ⟨cfg.Timeout⟩) := by
  refine ⟨?_, ?_, ?_, ?_, ?_, ?_, ?_⟩
  · intro h
    simp only [NewClient]
    split_ifs <;> simp_all
  · intro h
    simp only [NewClient]
    split_ifs <;> simp_all
  · intro h
    simp only [NewClient]
    split_ifs <;> simp_all
  · intro h
    simp only [NewClient]
    split_ifs <;> simp_all
  · intro hc h
    simp only [NewClient]
    split_ifs <;> simp_all
  · intro h h0
    simp only [NewClient]
    split_ifs <;> simp_all
  · intro h h0
    simp only [NewClient]
    split_ifs <;> simp_all

/-- C7 witness: the empty configuration takes every fallback, and a fully
specified configuration keeps its values, including the supplied client. -/
theorem C7_new_client_defaults_witness :
    (NewClient ⟨"", "", 0, none⟩).baseURL = "https://webapi.vvo-online.de" ∧
    (NewClient ⟨"", "", 0, none⟩).userAgent = "dvb-go-client/1.0.0" ∧
    (NewClient ⟨"", "", 0, none⟩).httpClient = ⟨30000000000⟩ ∧
    (NewClient ⟨"http://localhost:8080", "ua/2", 5, some ⟨7⟩⟩).baseURL
      = "http://localhost:8080" ∧
    (NewClient ⟨"http://localhost:8080", "ua/2", 5, some ⟨7⟩⟩).httpClient = ⟨7⟩ :=
  ⟨(C7_new_client_defaults _).1 rfl, (C7_new_client_defaults _).2.2.1 rfl,
   (C7_new_client_defaults _).2.2.2.2.2.1 rfl rfl,
   (C7_new_client_defaults _).2.1 (by decide),
   (C7_new_client_defaults _).2.2.2.2.1 _ rfl⟩

/-- C9: a nil params pointer skips the required-field check entirely: every
prepare function answers with request options for its fixed endpoint path and
a present-but-empty query (no validation error), the empty query encodes to
the empty query string, and a request built from such options is dispatched to
the endpoint path with an empty raw query. -/
theorem C9_nil_params_skip_validation :
    monitorStopPrepare none = .ok ⟨GET, "/dm", some [], none, []⟩ ∧
    getRoutePrepare none = .ok ⟨GET, "/tr/trips", some [], none, []⟩ ∧
    getLinesPrepare none = .ok ⟨GET, "/stt/lines", some [], none, []⟩ ∧
    getPointPrepare none = .ok ⟨GET, "/tr/pointfinder", some [], none, []⟩ ∧
    encodeValues [] = [] ∧
    (∀ (env : Collab Unit) c u m p hs, env.parseURL c.baseURL = .ok u →
      ∃ req, buildRequest env c ⟨m, p, some [], none, hs⟩ = .ok req ∧
        req.url.path = p ∧ req.url.rawQuery = []) := by
  refine ⟨rfl, rfl, rfl, rfl, rfl, ?_⟩
  intro env c u m p hs h
  simp only [buildRequest, h]
  exact ⟨_, rfl, rfl, rfl⟩

/-- C9 witness: the dispatch conclusion evaluated with a concrete parse
collaborator and the default client for the /dm options of a nil-params
MonitorStop call. -/
theorem C9_nil_params_skip_validation_witness :
    ∃ req,
      buildRequest
          (⟨fun _ => .ok ⟨"https", "webapi.vvo-online.de", "", []⟩, fun _ => .ok [],
            fun _ => .error "down"⟩ : Collab Unit)
          ⟨"https://webapi.vvo-online.de", ⟨30000000000⟩, "dvb-go-client/1.0.0"⟩
          ⟨GET, "/dm", some [], none, []⟩ = .ok req ∧
        req.url.path = "/dm" ∧ req.url.rawQuery = [] :=
  C9_nil_params_skip_validation.2.2.2.2.2 _ _ ⟨"https", "webapi.vvo-online.de", "", []⟩
    GET "/dm" [] rfl

/-- C10: doRequest overwrites the parsed base URL's path with the endpoint
path: every successfully built request carries exactly the endpoint path, and
when the base URL had a non-empty path the result is in particular not the
join of the two paths. -/
theorem C10_base_url_path_discarded {β : Type} (env : Collab β) (c : Client)
    (opts : RequestOptions β) (u : URL) (req : Request) :
    env.parseURL c.baseURL = .ok u → buildRequest env c opts = .ok req →
    req.url.path = opts.path ∧
      (u.path ≠ "" → req.url.path ≠ u.path ++ opts.path) := by
  intro hp hb
  have hpath : req.url.path = opts.path := by
    rcases hbody : opts.body with - | b
    · simp only [buildRequest, hp, hbody] at hb
      rcases hq : opts.query with - | q <;> simp [hq] at hb <;> subst hb <;> rfl
    · simp only [buildRequest, hp, hbody] at hb
      rcases hm : env.marshal b with e | bs
      · simp [hm] at hb
      · rcases hq : opts.query with - | q <;> simp [hq, hm] at hb <;> subst hb <;> rfl
  refine ⟨hpath, ?_⟩
  intro hne hcontra
  rw [hpath] at hcontra
  have hlen := congrArg String.length hcontra
  rw [String.length_append] at hlen
  have h0 : u.path.length = 0 := by omega
  refine hne ?_
  rcases hu : u.path with ⟨data⟩
  rw [hu] at h0
  simp [String.length] at h0
  simp [h0]

/-- C10 witness: a base URL whose parse result carries the non-empty path /api
is discarded in favour of the endpoint path /dm. -/
theorem C10_base_url_path_discarded_witness :
    ∃ req,
      buildRequest
          (⟨fun _ => .ok ⟨"https", "host.example", "/api", []⟩, fun _ => .ok [],
            fun _ => .error "down"⟩ : Collab Unit)
          ⟨"https://host.example/api", ⟨0⟩, "ua"⟩ ⟨GET, "/dm", some [], none, []⟩ = .ok req ∧
      req.url.path = "/dm" ∧ req.url.path ≠ "/api" ++ "/dm" := by
  refine ⟨⟨GET, ⟨"https", "host.example", "/dm", []⟩,
    [("User-Agent", "ua")], none⟩, ?hb, ?_⟩
  case hb => rfl
  have h := C10_base_url_path_discarded
    (⟨fun _ => .ok ⟨"https", "host.example", "/api", []⟩, fun _ => .ok [],
      fun _ => .error "down"⟩ : Collab Unit)
    ⟨"https://host.example/api", ⟨0⟩, "ua"⟩ ⟨GET, "/dm", some [], none, []⟩
    ⟨"https", "host.example", "/api", []⟩
    ⟨GET, ⟨"https", "host.example", "/dm", []⟩, [("User-Agent", "ua")], none⟩
    rfl rfl
  exact ⟨h.1, h.2 (by decide)⟩

/-- C3: handleResponse classifies 200..299 as success and everything else as
an API error produced by the classifier; a success with no decode target or an
empty body returns without decoding; a success with a non-empty body decodes
it, a decode failure becoming a response-parsing error (a decode-tagged error,
distinct by construction from an API error) wrapping the cause. -/
theorem C3_handle_response_classification {α : Type}
    (decA : List Nat → Except String APIError) (dec : List Nat → Except String α)
    (st : Int) (body : Option (List Nat)) :
    (st < 200 ∨ st ≥ 300 → ∀ t, handleResponse decA dec ⟨st, body⟩ t =
      .error (.api (handleErrorResponse decA ⟨st, body⟩))) ∧
    (200 ≤ st → st < 300 → handleResponse decA dec ⟨st, body⟩ false = .ok none) ∧
    (200 ≤ st → st < 300 → body = some [] →
      handleResponse decA dec ⟨st, body⟩ true = .ok none) ∧
    (∀ b v, 200 ≤ st → st < 300 → body = some b → b ≠ [] → dec b = .ok v →
      handleResponse decA dec ⟨st, body⟩ true = .ok (some v)) ∧
    (∀ b cause, 200 ≤ st → st < 300 → body = some b → b ≠ [] → dec b = .error cause →
      handleResponse decA dec ⟨st, body⟩ true =
        .error (.decode ("failed to unmarshal response: " ++ cause))) := by
  refine ⟨?_, ?_, ?_, ?_, ?_⟩
  · intro h t
    simp [handleResponse, h]
  · intro h1 h2
    have h : ¬ (st < 200 ∨ st ≥ 300) := by omega
    simp [handleResponse, h]
  · intro h1 h2 hb
    have h : ¬ (st < 200 ∨ st ≥ 300) := by omega
    simp [handleResponse, h, hb]
  · intro b v h1 h2 hb hne hdec
    have h : ¬ (st < 200 ∨ st ≥ 300) := by omega
    simp [handleResponse, h, hb, hne, hdec]
  · intro b cause h1 h2 hb hne hdec
    have h : ¬ (st < 200 ∨ st ≥ 300) := by omega
    simp [handleResponse, h, hb, hne, hdec]

/-- C3 witness: the five classifications evaluated with concrete decoders (the
Nat decoder accepts only the byte string 49). -/
theorem C3_handle_response_classification_witness :
    handleResponse (fun _ => .error "not json") (fun b : List Nat =>
        if b = [49] then .ok (1 : Nat) else .error "bad json") ⟨404, some [104]⟩ true =
      .error (.api (handleErrorResponse (fun _ => .error "not json") ⟨404, some [104]⟩)) ∧
    handleResponse (fun _ => .error "not json") (fun b : List Nat =>
        if b = [49] then .ok (1 : Nat) else .error "bad json") ⟨204, some [104]⟩ false =
      .ok none ∧
    handleResponse (fun _ => .error "not json") (fun b : List Nat =>
        if b = [49] then .ok (1 : Nat) else .error "bad json") ⟨200, some []⟩ true =
      .ok none ∧
    handleResponse (fun _ => .error "not json") (fun b : List Nat =>
        if b = [49] then .ok (1 : Nat) else .error "bad json") ⟨200, some [49]⟩ true =
      .ok (some 1) ∧
    handleResponse (fun _ => .error "not json") (fun b : List Nat =>
        if b = [49] then .ok (1 : Nat) else .error "bad json") ⟨200, some [104]⟩ true =
      .error (.decode ("failed to unmarshal response: " ++ "bad json")) :=
  ⟨(C3_handle_response_classification _ _ 404 (some [104])).1 (by omega) true,
   (C3_handle_response_classification _ _ 204 (some [104])).2.1 (by omega) (by omega),
   (C3_handle_response_classification _ _ 200 (some [])).2.2.1 (by omega) (by omega) rfl,
   (C3_handle_response_classification _ _ 200 (some [49])).2.2.2.1 [49] 1 (by omega) (by omega)
     rfl (by decide) rfl,
   (C3_handle_response_classification _ _ 200 (some [104])).2.2.2.2 [104] "bad json" (by omega)
     (by omega) rfl (by decide) rfl⟩

/-- C4: the error classifier always returns an APIError whose status code is
the response's HTTP status code; a body that decodes as the structured shape
keeps its message, code and details with the status overwritten; a body that
fails to decode produces the generic message carrying the status code and the
raw body text. -/
theorem C4_error_classifier_status_authoritative
    (decA : List Nat → Except String APIError) (st : Int) (b : List Nat) :
    (handleErrorResponse decA ⟨st, some b⟩).StatusCode = st ∧
    (handleErrorResponse decA ⟨st, none⟩).StatusCode = st ∧
    (∀ e, decA b = .ok e →
      handleErrorResponse decA ⟨st, some b⟩ = { e with StatusCode := st }) ∧
    (∀ cause, decA b = .error cause →
      handleErrorResponse decA ⟨st, some b⟩ =
        ⟨st, "HTTP " ++ toString st ++ ": " ++ bytesToString b, "", ""⟩) := by
  refine ⟨?_, ?_, ?_, ?_⟩
  · rcases hd : decA b with e | e <;> simp [handleErrorResponse, hd]
  · simp [handleErrorResponse]
  · intro e hd
    simp [handleErrorResponse, hd]
  · intro cause hd
    simp [handleErrorResponse, hd]

/-- C4 witness: the decode-fallback path at HTTP 500 with the non-JSON body
"internal error", and the structured path at HTTP 404 with a decoded message
whose status code 0 is overwritten by 404. -/
theorem C4_error_classifier_status_authoritative_witness :
    handleErrorResponse (fun _ => .error "invalid character") ⟨500, some (strBytes "internal error")⟩ =
      ⟨500, "HTTP " ++ toString (500 : Int) ++ ": " ++ bytesToString (strBytes "internal error"),
        "", ""⟩ ∧
    handleErrorResponse (fun _ => .ok ⟨0, "stop not found", "", ""⟩) ⟨404, some (strBytes "x")⟩ =
      ⟨404, "stop not found", "", ""⟩ :=
  ⟨(C4_error_classifier_status_authoritative _ 500 (strBytes "internal error")).2.2.2
     "invalid character" rfl,
   (C4_error_classifier_status_authoritative _ 404 (strBytes "x")).2.2.1
     ⟨0, "stop not found", "", ""⟩ rfl⟩

lemma lookupKey_valuesSet_self (q : List (String × String)) (k v : String) :
    lookupKey (valuesSet q k v) k = some v := by
  induction q with
  | nil => simp [valuesSet, lookupKey]
  | cons p rest ih =>
    by_cases hp : p.1 = k <;> simp [valuesSet, hp, lookupKey, ih]

/-- C6 counterexample: doRequest applies caller headers after the User-Agent
header, so a caller-supplied User-Agent header does override the configured
user agent: with the default user agent and the extra header
User-Agent custom-agent/2.0, the outgoing request carries custom-agent/2.0 and
not the configured dvb-go-client/1.0.0, contradicting the claim. -/
theorem C6_counterexample_caller_header_overrides :
    buildRequest
        (⟨fun _ => .ok ⟨"https", "webapi.vvo-online.de", "", []⟩, fun _ => .ok [],
          fun _ => .error "down"⟩ : Collab Unit)
        ⟨"https://webapi.vvo-online.de", ⟨30000000000⟩, "dvb-go-client/1.0.0"⟩
        ⟨GET, "/dm", some [], none, [("User-Agent", "custom-agent/2.0")]⟩ =
      .ok ⟨GET, ⟨"https", "webapi.vvo-online.de", "/dm", []⟩,
        [("User-Agent", "custom-agent/2.0")], none⟩ ∧
    headerGet [("User-Agent", "custom-agent/2.0")] "User-Agent" = some "custom-agent/2.0" ∧
    some "custom-agent/2.0" ≠ some "dvb-go-client/1.0.0" := by
  refine ⟨rfl, rfl, by decide⟩

/-- C6 amended: caller-specified headers are applied after the user-agent
header with last-write-wins semantics per (canonicalized) header key, so when
the caller supplies exactly one extra header with key User-Agent, the outgoing
request's User-Agent header equals the caller's value rather than the client's
configured user agent. -/
theorem C6_amended_last_write_wins {β : Type} (env : Collab β) (c : Client)
    (opts : RequestOptions β) (ua : String) (u : URL) (req : Request) :
    env.parseURL c.baseURL = .ok u →
    opts.headers = [("User-Agent", ua)] →
    buildRequest env c opts = .ok req →
    headerGet req.headers "User-Agent" = some ua := by
  intro hp hh hb
  rcases hbody : opts.body with - | b
  · simp only [buildRequest, hp, hbody, hh] at hb
    rcases hq : opts.query with - | q <;> simp [hq] at hb <;> subst hb <;>
      simp [headerGet, headerSet, List.foldl, lookupKey_valuesSet_self]
  · simp only [buildRequest, hp, hbody, hh] at hb
    rcases hm : env.marshal b with e | bs
    · simp [hm] at hb
    · rcases hq : opts.query with - | q <;> simp [hq, hm] at hb <;> subst hb <;>
        simp [headerGet, headerSet, List.foldl, lookupKey_valuesSet_self]

/-- C6 amended witness: the last-write-wins conclusion evaluated at the
counterexample's concrete input. -/
theorem C6_amended_last_write_wins_witness :
    headerGet [("User-Agent", "custom-agent/2.0")] "User-Agent" = some "custom-agent/2.0" :=
  C6_amended_last_write_wins
    (⟨fun _ => .ok ⟨"https", "webapi.vvo-online.de", "", []⟩, fun _ => .ok [],
      fun _ => .error "down"⟩ : Collab Unit)
    ⟨"https://webapi.vvo-online.de", ⟨30000000000⟩, "dvb-go-client/1.0.0"⟩
    ⟨GET, "/dm", some [], none, [("User-Agent", "custom-agent/2.0")]⟩
    "custom-agent/2.0" ⟨"https", "webapi.vvo-online.de", "", []⟩
    ⟨GET, ⟨"https", "webapi.vvo-online.de", "/dm", []⟩,
      [("User-Agent", "custom-agent/2.0")], none⟩
    rfl rfl rfl

lemma hexVal_hexDigit {x : Nat} (h : x < 16) : hexVal (hexDigit x) = some x := by
  unfold hexDigit hexVal
  split_ifs <;> simp_all <;> omega

lemma hexDigit_bounds {x : Nat} (h : x < 16) :
    (48 ≤ hexDigit x ∧ hexDigit x ≤ 57) ∨ (65 ≤ hexDigit x ∧ hexDigit x ≤ 70) := by
  unfold hexDigit
  split_ifs <;> omega

lemma escapeByte_safe {n : Nat} (hn : n < 256) {d : Nat} (hd : d ∈ escapeByte n) :
    d ≠ 38 ∧ d ≠ 59 ∧ d ≠ 61 := by
  unfold escapeByte at hd
  by_cases h1 : isUnreservedByte n
  · simp only [h1, if_true, List.mem_singleton] at hd
    subst hd
    refine ⟨?_, ?_, ?_⟩ <;> intro he <;> rw [he] at h1 <;> exact absurd h1 (by decide)
  · by_cases h2 : n = 32
    · subst h2
      rw [if_neg h1, if_pos rfl] at hd
      simp at hd
      omega
    · rw [if_neg h1, if_neg h2] at hd
      simp at hd
      rcases hd with hd | hd | hd
      · omega
      · have := hexDigit_bounds (x := n / 16) (by omega)
        omega
      · have := hexDigit_bounds (x := n % 16) (by omega)
        omega

lemma queryEscape_safe {s : List Nat} (hs : ∀ n ∈ s, n < 256) {d : Nat}
    (hd : d ∈ queryEscape s) : d ≠ 38 ∧ d ≠ 59 ∧ d ≠ 61 := by
  unfold queryEscape at hd
  rw [List.mem_flatten] at hd
  rcases hd with ⟨l, hl, hdl⟩
  rw [List.mem_map] at hl
  rcases hl with ⟨n, hn, rfl⟩
  exact escapeByte_safe (hs n hn) hdl

lemma unescapeQuery_escapeByte_append {n : Nat} (hn : n < 256) (t : List Nat) :
    unescapeQuery (escapeByte n ++ t) = (unescapeQuery t).map (fun r => n :: r) := by
  unfold escapeByte
  by_cases h1 : isUnreservedByte n
  · have hn37 : ¬ n = 37 := by
      intro he
      rw [he] at h1
      exact absurd h1 (by decide)
    have hn43 : ¬ n = 43 := by
      intro he
      rw [he] at h1
      exact absurd h1 (by decide)
    simp only [h1, if_true, List.singleton_append]
    rw [unescapeQuery.eq_def]
    simp [hn37, hn43]
  · by_cases h2 : n = 32
    · subst h2
      simp only [h1, if_false, if_pos rfl, Bool.false_eq_true, List.singleton_append]
      rw [unescapeQuery.eq_def]
      simp
    · have hd1 := hexVal_hexDigit (x := n / 16) (by omega)
      have hd2 := hexVal_hexDigit (x := n % 16) (by omega)
      simp only [h1, h2, if_false, Bool.false_eq_true, List.cons_append, List.nil_append]
      rw [unescapeQuery.eq_def]
      simp [hd1, hd2, Nat.div_add_mod]

lemma unescapeQuery_queryEscape {s : List Nat} (hs : ∀ n ∈ s, n < 256) :
    unescapeQuery (queryEscape s) = some s := by
  induction s with
  | nil => rfl
  | cons n rest ih =>
    have hn : n < 256 := hs n (List.mem_cons_self n rest)
    have hrest : ∀ m ∈ rest, m < 256 := fun m hm => hs m (List.mem_cons_of_mem n hm)
    have : queryEscape (n :: rest) = escapeByte n ++ queryEscape rest := by
      simp [queryEscape]
    rw [this, unescapeQuery_escapeByte_append hn, ih hrest]
    rfl

lemma cutEq_append {a : List Nat} (h : 61 ∉ a) (b : List Nat) :
    cutEq (a ++ 61 :: b) = (a, b) := by
  induction a with
  | nil => simp [cutEq]
  | cons c rest ih =>
    have hc : ¬ c = 61 := fun hc => h (hc ▸ List.mem_cons_self c rest)
    have hrest : 61 ∉ rest := fun hm => h (List.mem_cons_of_mem c hm)
    simp [cutEq, hc, ih hrest]

lemma parseQuerySegs_encoded (l : List (String × String))
    (h : ∀ p ∈ l, (∀ n ∈ strBytes p.1, n < 256) ∧ (∀ n ∈ strBytes p.2, n < 256)) :
    parseQuerySegs
        (l.map (fun p => queryEscape (strBytes p.1) ++ 61 :: queryEscape (strBytes p.2))) =
      (l.map (fun p => (strBytes p.1, strBytes p.2)), false) := by
  induction l with
  | nil => rfl
  | cons p rest ih =>
    have hp := h p (List.mem_cons_self p rest)
    have hrest : ∀ p' ∈ rest, (∀ n ∈ strBytes p'.1, n < 256) ∧ (∀ n ∈ strBytes p'.2, n < 256) :=
      fun p' hp' => h p' (List.mem_cons_of_mem p hp')
    have h59 : ¬ (59 ∈ queryEscape (strBytes p.1) ++ 61 :: queryEscape (strBytes p.2)) := by
      intro hm
      rw [List.mem_append] at hm
      rcases hm with hm | hm
      · exact (queryEscape_safe hp.1 hm).2.1 rfl
      · rcases List.mem_cons.mp hm with hm | hm
        · omega
        · exact (queryEscape_safe hp.2 hm).2.1 rfl
    have hne : queryEscape (strBytes p.1) ++ 61 :: queryEscape (strBytes p.2) ≠ [] := by
      simp
    have hcut : cutEq (queryEscape (strBytes p.1) ++ 61 :: queryEscape (strBytes p.2)) =
        (queryEscape (strBytes p.1), queryEscape (strBytes p.2)) :=
      cutEq_append (fun hm => (queryEscape_safe hp.1 hm).2.2 rfl) _
    rw [List.map_cons, parseQuerySegs.eq_def]
    simp only [if_neg h59, if_neg hne, hcut, unescapeQuery_queryEscape hp.1,
      unescapeQuery_queryEscape hp.2, ih hrest, List.map_cons]

lemma parse_encode (q : Values)
    (h : ∀ p ∈ q, (∀ n ∈ strBytes p.1, n < 256) ∧ (∀ n ∈ strBytes p.2, n < 256)) :
    parseQuery (encodeValues q) =
      ((List.insertionSort keyLe q).map (fun p => (strBytes p.1, strBytes p.2)), false) := by
  have hperm := List.perm_insertionSort keyLe q
  have hsorted : ∀ p ∈ List.insertionSort keyLe q,
      (∀ n ∈ strBytes p.1, n < 256) ∧ (∀ n ∈ strBytes p.2, n < 256) :=
    fun p hp => h p (hperm.mem_iff.mp hp)
  rcases hq : List.insertionSort keyLe q with - | ⟨p0, l0⟩
  · unfold encodeValues parseQuery
    rw [hq]
    rfl
  · rw [hq] at hsorted
    unfold encodeValues parseQuery
    rw [hq]
    have hno38 : ∀ seg ∈ (p0 :: l0).map
        (fun p => queryEscape (strBytes p.1) ++ 61 :: queryEscape (strBytes p.2)), 38 ∉ seg := by
      intro seg hseg hm
      rw [List.mem_map] at hseg
      rcases hseg with ⟨p, hpl, rfl⟩
      have hpb := hsorted p hpl
      rw [List.mem_append] at hm
      rcases hm with hm | hm
      · exact (queryEscape_safe hpb.1 hm).1 rfl
      · rcases List.mem_cons.mp hm with hm | hm
        · omega
        · exact (queryEscape_safe hpb.2 hm).1 rfl
    rw [List.splitOn_intercalate _ 38 hno38 (by simp)]
    exact parseQuerySegs_encoded (p0 :: l0) hsorted

/-- C8: for every query an endpoint wrapper hands to doRequest (built from any
params value, nil or not), encoding it with the Values encoder and parsing the
query string back yields exactly the same key/value pairs up to order (the
parse returns them in the encoder's sorted key order, a permutation of the
built query), with no parse error. -/
theorem C8_query_encode_parse_round_trip :
    (∀ (o : Option MonitorStopParams) r q, monitorStopPrepare o = .ok r → r.query = some q →
      (∀ p ∈ q, (∀ n ∈ strBytes p.1, n < 256) ∧ (∀ n ∈ strBytes p.2, n < 256)) →
      (parseQuery (encodeValues q)).2 = false ∧
      List.Perm (parseQuery (encodeValues q)).1
        (q.map (fun p => (strBytes p.1, strBytes p.2)))) ∧
    (∀ (o : Option GetRouteOptions) r q, getRoutePrepare o = .ok r → r.query = some q →
      (∀ p ∈ q, (∀ n ∈ strBytes p.1, n < 256) ∧ (∀ n ∈ strBytes p.2, n < 256)) →
      (parseQuery (encodeValues q)).2 = false ∧
      List.Perm (parseQuery (encodeValues q)).1
        (q.map (fun p => (strBytes p.1, strBytes p.2)))) ∧
    (∀ (o : Option GetLinesParams) r q, getLinesPrepare o = .ok r → r.query = some q →
      (∀ p ∈ q, (∀ n ∈ strBytes p.1, n < 256) ∧ (∀ n ∈ strBytes p.2, n < 256)) →
      (parseQuery (encodeValues q)).2 = false ∧
      List.Perm (parseQuery (encodeValues q)).1
        (q.map (fun p => (strBytes p.1, strBytes p.2)))) ∧
    (∀ (o : Option GetPointOptions) r q, getPointPrepare o = .ok r → r.query = some q →
      (∀ p ∈ q, (∀ n ∈ strBytes p.1, n < 256) ∧ (∀ n ∈ strBytes p.2, n < 256)) →
      (parseQuery (encodeValues q)).2 = false ∧
      List.Perm (parseQuery (encodeValues q)).1
        (q.map (fun p => (strBytes p.1, strBytes p.2)))) := by
  have main : ∀ q : Values,
      (∀ p ∈ q, (∀ n ∈ strBytes p.1, n < 256) ∧ (∀ n ∈ strBytes p.2, n < 256)) →
      (parseQuery (encodeValues q)).2 = false ∧
      List.Perm (parseQuery (encodeValues q)).1
        (q.map (fun p => (strBytes p.1, strBytes p.2))) := by
    intro q hb
    rw [parse_encode q hb]
    exact ⟨rfl, List.Perm.map _ (List.perm_insertionSort keyLe q)⟩
  exact ⟨fun o r q hpre hq hb => main q hb, fun o r q hpre hq hb => main q hb,
    fun o r q hpre hq hb => main q hb, fun o r q hpre hq hb => main q hb⟩

/-- C8 witness: the round trip evaluated for a concrete MonitorStop params
value whose stop id needs escaping (spaces and a percent sign). -/
theorem C8_query_encode_parse_round_trip_witness :
    (parseQuery (encodeValues [("stopid", "Haupt Bahnhof 5%"), ("isarrival", "true"),
      ("limit", "2")])).2 = false ∧
    List.Perm (parseQuery (encodeValues [("stopid", "Haupt Bahnhof 5%"), ("isarrival", "true"),
      ("limit", "2")])).1
      [(strBytes "stopid", strBytes "Haupt Bahnhof 5%"), (strBytes "isarrival", strBytes "true"),
        (strBytes "limit", strBytes "2")] :=
  C8_query_encode_parse_round_trip.1
    (some ⟨"Haupt Bahnhof 5%", none, none, some true, some 2, none, none⟩) _ _ rfl rfl
    (by decide)
